import Mathlib

/-!
Verification development for `self_reward_train_cli.py` of the
LLMSteerability repository.

The script is a command-line driver: it parses a `ConfigTrain`, dispatches
recipes (PEFT, tokenizer, quantization, model, dataset) into framework
objects through dispatcher factories, optionally rewrites the prompt-tuning
initialisation text, loads train/validation datasets (with a fallback split
of the training set when the validation split raises), optionally splices a
system-tuning proxy into the model, and finally runs a sampling-based
generation sanity check, printing each decoded output.

All framework functionality (dispatcher factories, dataset loading,
splitting, generation, tokenisation) lives outside this repository; it is
modelled by an abstract environment `Env` of uninterpreted functions. The
driver itself is embedded as the pure function `run`, which mirrors the
script line by line and additionally records an event trace in the order
the source performs its operations.
-/

/-- Phases of the driver, used as ghost trace events. `setSeed` is the
module-level `transformers.set_seed(42)` (line 15); `parse` is
`get_config_from_argparser` (line 23); the dispatch events are the
dispatcher factory calls; `trainRun` would be a `FineTuner` training-loop
launch (the script imports `FineTuner` on line 4 but never emits this
event); `generate` is the `model.generate` call (line 159). -/
inductive Event where
  | setSeed (n : Nat)
  | parse
  | dispatchPeft
  | fetchTuningDataset
  | setInitText
  | dispatchTokenizer
  | dispatchQuantization
  | dispatchModel
  | fetchTrainDataset
  | fetchValDataset
  | trainTestSplit
  | selectTrain
  | fitSystemTemplate
  | addProxy
  | trainRun
  | generate
deriving DecidableEq, Repr, Inhabited

/-- Which `peft` config class a PEFT recipe carries (`peft_config_obj`).
The driver only ever compares it against `PromptTuningConfig`. -/
inductive PeftConfigClass where
  | promptTuningConfig
  | loraConfig
  | otherConfig
deriving DecidableEq, Repr, Inhabited

/-- A PEFT recipe: an opaque identifier plus its `peft_config_obj` class. -/
structure PeftRecipe where
  id : Nat
  peft_config_obj : PeftConfigClass
deriving DecidableEq, Repr, Inhabited

/-- The PEFT config produced by `PeftDispatcher(...).get_peft_config()`.
Only the two fields the driver touches (for prompt tuning) are modelled;
for other PEFT classes they are simply never read or written. -/
structure PeftConfig where
  prompt_tuning_init_text : String
  num_virtual_tokens : Nat
deriving DecidableEq, Repr, Inhabited

/-- Opaque tokenizer recipe. -/
structure TokenizerRecipe where
  id : Nat
deriving DecidableEq, Repr, Inhabited

/-- Opaque model recipe. -/
structure ModelRecipe where
  id : Nat
deriving DecidableEq, Repr, Inhabited

/-- Opaque dataset recipe. -/
structure DatasetRecipe where
  id : Nat
deriving DecidableEq, Repr, Inhabited

/-- Opaque quantization recipe. -/
structure QuantizationRecipe where
  id : Nat
deriving DecidableEq, Repr, Inhabited

/-- Opaque postprocess function carried by a model-template recipe; the
driver only passes it through to the dataset dispatcher. -/
structure PostprocessFunction where
  id : Nat
deriving DecidableEq, Repr, Inhabited

/-- Model template recipe; the driver reads its `postprocess_function`. -/
structure ModelTemplateRecipe where
  postprocess_function : PostprocessFunction
deriving DecidableEq, Repr, Inhabited

/-- Opaque quantization config produced by the quantization dispatcher. -/
structure QuantizationConfig where
  id : Nat
deriving DecidableEq, Repr, Inhabited

/-- A dataset; the driver reads its `text` column (lines 70, 136-137). -/
structure Dataset where
  text : List String
deriving DecidableEq, Repr, Inhabited

/-- Opaque support dataset (few-shot example store). -/
structure DatasetSupport where
  id : Nat
deriving DecidableEq, Repr, Inhabited

/-- Opaque model handle. -/
structure Model where
  id : Nat
deriving DecidableEq, Repr, Inhabited

/-- Opaque system template produced by `fit_system_template_tokens`. -/
structure SystemTemplate where
  id : Nat
deriving DecidableEq, Repr, Inhabited

/-- The tokenizer produced by `TokenizerDispatcher(...).get_tokenizer`.
`decode`'s second argument is `skip_special_tokens`. -/
structure Tokenizer where
  eos_token : String
  eos_token_id : Nat
  encode : String → List Nat
  decode : List Nat → Bool → String
deriving Inhabited

/-- `transformers.TrainingArguments`; the driver reads `output_dir`. -/
structure TrainingArguments where
  output_dir : String
deriving DecidableEq, Repr, Inhabited

/-- `transformers.GenerationConfig` as built on lines 161-168. -/
structure GenerationConfig where
  max_new_tokens : Nat
  num_return_sequences : Nat
  temperature : ℚ
  top_p : ℚ
  do_sample : Bool
  pad_token_id : Nat
deriving DecidableEq, Repr, Inhabited

/-- The `ConfigTrain` instance produced by the argument parser: every field
the driver reads. Absent recipes are `none`; `validation_split_size` and
`training_size` are optional (Python `None`), and `training_size = some 0`
is falsy like Python's `if config.training_size:`. -/
structure ConfigTrain where
  verbose : Bool
  training_arguments : TrainingArguments
  model_name : String
  peft_recipe : Option PeftRecipe
  prompt_tuning_most_common_init : Bool
  tokenizer_recipe : TokenizerRecipe
  model_recipe : ModelRecipe
  quantization_recipe : Option QuantizationRecipe
  dataset_name : String
  dataset_recipe : DatasetRecipe
  model_template_recipe : ModelTemplateRecipe
  num_examples : Nat
  num_proc : Option Nat
  dynamic_examples : Bool
  validation_split_size : Option ℚ
  training_size : Option Nat
  system_tuning : Bool
deriving Inhabited

/-- The external framework: every library call the driver makes, as
uninterpreted functions. `get_support_and_tuning_dataset` may fail
(`Except.error`), which models a raised exception; its arguments are, in
order: recipe, dataset name, split, `num_examples` (when passed),
`dataset_support` (when passed), postprocess function, eos token,
`include_labels_inside_text`, `num_proc`, `dynamic_examples`. -/
structure Env where
  get_peft_config : PeftRecipe → PeftConfig
  get_tuning_dataset : DatasetRecipe → String → String → String → Bool → Dataset
  most_common_words : List String → Nat → List String
  get_tokenizer : TokenizerRecipe → String → Tokenizer
  get_quantization_config : QuantizationRecipe → QuantizationConfig
  get_model : ModelRecipe → String → Option QuantizationConfig → Option PeftConfig → Model
  get_support_and_tuning_dataset :
    DatasetRecipe → String → String → Option Nat → Option DatasetSupport →
    PostprocessFunction → String → Bool → Option Nat → Bool →
    Except Unit (DatasetSupport × Dataset)
  train_test_split : Dataset → ℚ → Dataset × Dataset
  select : Dataset → Nat → Dataset
  fit_system_template_tokens : Dataset → ModelTemplateRecipe → Tokenizer → SystemTemplate
  add_proxy : Model → SystemTemplate → Tokenizer → Model
  generate : Model → List Nat → GenerationConfig → List (List Nat)

/-- How the driver can fail: an uncaught exception from the training-split
fetch, or the `assert` on line 126. -/
inductive RunError where
  | datasetError
  | assertionError (msg : String)
deriving DecidableEq, Repr, Inhabited

/-- Everything observable about a completed run: the event trace plus the
value of each program variable of the script (including intermediate
values of the rebound variables `peft_config`, `dataset_train`, `model`). -/
structure RunResult where
  trace : List Event
  peftConfigInitial : Option PeftConfig
  peftConfig : Option PeftConfig
  tokenizer : Tokenizer
  quantizationConfig : Option QuantizationConfig
  modelConstructed : Model
  datasetSupport : DatasetSupport
  datasetTrainInitial : Dataset
  datasetTrainPostVal : Dataset
  datasetVal : Dataset
  datasetTrain : Dataset
  modelFinal : Model
  genConfig : GenerationConfig
  genInput : List Nat
  outputs : List (List Nat)
  printed : List String
deriving Inhabited

/-- Line 65's guard: `peft_recipe is not None and
peft_recipe.peft_config_obj == PromptTuningConfig and
config.prompt_tuning_most_common_init`. -/
def promptInitCond (c : ConfigTrain) : Bool :=
  match c.peft_recipe with
  | some pr =>
      decide (pr.peft_config_obj = PeftConfigClass.promptTuningConfig) &&
        c.prompt_tuning_most_common_init
  | none => false

/-- Line 152's guard: `peft_recipe is not None and
peft_recipe.peft_config_obj == PromptTuningConfig and config.system_tuning`. -/
def sysCond (c : ConfigTrain) : Bool :=
  match c.peft_recipe with
  | some pr =>
      decide (pr.peft_config_obj = PeftConfigClass.promptTuningConfig) &&
        c.system_tuning
  | none => false

/-- Line 133's guard: Python truthiness of `config.training_size`
(`None` and `0` are falsy). -/
def selectCond (c : ConfigTrain) : Bool :=
  match c.training_size with
  | some n => decide (n ≠ 0)
  | none => false

/-- Lines 66-71: fetch the tuning dataset for split `"train"` with empty
eos token and labels excluded, join its `text` column with spaces,
lowercase, split on single spaces, take the `n` most common words and join
them with spaces. -/
def initTextOf (env : Env) (c : ConfigTrain) (n : Nat) : String :=
  String.intercalate " "
    (env.most_common_words
      (((String.intercalate " "
          (env.get_tuning_dataset c.dataset_recipe c.dataset_name "train" "" false).text).toLower).splitOn " ")
      n)

/-- Line 80: `TokenizerDispatcher(tokenizer_recipe).get_tokenizer(model_name)`. -/
def tokenizerOf (env : Env) (c : ConfigTrain) : Tokenizer :=
  env.get_tokenizer c.tokenizer_recipe c.model_name

/-- Lines 107-114: the training-split call
`DatasetDispatcher(dataset_recipe).get_support_and_tuning_dataset(dataset_name,
split="train", num_examples=..., postprocess_function=...,
eos_token=tokenizer.eos_token, include_labels_inside_text=True,
num_proc=..., dynamic_examples=...)`. -/
def trainFetch (env : Env) (c : ConfigTrain) : Except Unit (DatasetSupport × Dataset) :=
  env.get_support_and_tuning_dataset c.dataset_recipe c.dataset_name "train"
    (some c.num_examples) none c.model_template_recipe.postprocess_function
    (tokenizerOf env c).eos_token true c.num_proc c.dynamic_examples

/-- Lines 116-123: the validation-split call, which passes
`dataset_support` instead of `num_examples`. -/
def valFetch (env : Env) (c : ConfigTrain) (dataset_support : DatasetSupport) :
    Except Unit (DatasetSupport × Dataset) :=
  env.get_support_and_tuning_dataset c.dataset_recipe c.dataset_name "validation"
    none (some dataset_support) c.model_template_recipe.postprocess_function
    (tokenizerOf env c).eos_token true c.num_proc c.dynamic_examples

/-- Line 160's fixed generation test prompt. -/
def testPrompt : String :=
  "[INST] This is a test, answer with a fun fact about life: [/INST]"

/-- The event trace of a completed run, in source order; each optional
segment is guarded by the same condition that guards the corresponding
source block. `valSplit` records whether the validation fetch raised and
the line 130 fallback split ran. -/
def eventTrace (hasPeft promptInit hasQuant valSplit selectTr sysTune : Bool) : List Event :=
  [Event.setSeed 42, Event.parse]
    ++ (if hasPeft then [Event.dispatchPeft] else [])
    ++ (if promptInit then [Event.fetchTuningDataset, Event.setInitText] else [])
    ++ [Event.dispatchTokenizer]
    ++ (if hasQuant then [Event.dispatchQuantization] else [])
    ++ [Event.dispatchModel, Event.fetchTrainDataset, Event.fetchValDataset]
    ++ (if valSplit then [Event.trainTestSplit] else [])
    ++ (if selectTr then [Event.selectTrain] else [])
    ++ (if sysTune then [Event.fitSystemTemplate, Event.addProxy] else [])
    ++ [Event.generate]

/-- The pure tail of the run, given the datasets obtained from the
(possibly failing) fetches: lines 62-87 (PEFT config, optional init-text
rewrite, tokenizer, quantization config, model construction), line 133
(optional `select`), lines 152-155 (optional system-tuning proxy) and
lines 159-172 (generation and decoding). These stages are pure, so they
are gathered here; the trace records their source order. -/
def mkResult (env : Env) (c : ConfigTrain) (dataset_support : DatasetSupport)
    (dataset_train_initial dataset_train_post_val dataset_val : Dataset)
    (valSplit : Bool) : RunResult :=
  let peft_config0 := c.peft_recipe.map env.get_peft_config
  let peft_config :=
    if promptInitCond c then
      peft_config0.map (fun pc =>
        { pc with prompt_tuning_init_text := initTextOf env c pc.num_virtual_tokens })
    else peft_config0
  let tokenizer := tokenizerOf env c
  let quantization_config := c.quantization_recipe.map env.get_quantization_config
  let model := env.get_model c.model_recipe c.model_name quantization_config peft_config
  let dataset_train :=
    if selectCond c then env.select dataset_train_post_val (c.training_size.getD 0)
    else dataset_train_post_val
  let model_final :=
    if sysCond c then
      env.add_proxy model
        (env.fit_system_template_tokens dataset_train c.model_template_recipe tokenizer)
        tokenizer
    else model
  let generation_config : GenerationConfig :=
    { max_new_tokens := 100
      num_return_sequences := 4
      temperature := 0.6
      top_p := 0.9
      do_sample := true
      pad_token_id := tokenizer.eos_token_id }
  let input_ids := tokenizer.encode testPrompt
  let outputs := env.generate model_final input_ids generation_config
  let printed := outputs.map (fun output => tokenizer.decode output true)
  { trace := eventTrace c.peft_recipe.isSome (promptInitCond c)
      c.quantization_recipe.isSome valSplit (selectCond c) (sysCond c)
    peftConfigInitial := peft_config0
    peftConfig := peft_config
    tokenizer := tokenizer
    quantizationConfig := quantization_config
    modelConstructed := model
    datasetSupport := dataset_support
    datasetTrainInitial := dataset_train_initial
    datasetTrainPostVal := dataset_train_post_val
    datasetVal := dataset_val
    datasetTrain := dataset_train
    modelFinal := model_final
    genConfig := generation_config
    genInput := input_ids
    outputs := outputs
    printed := printed }

/-- The whole driver. The training-split fetch failing is an uncaught
exception (`datasetError`); the validation fetch is wrapped in
`try/except` (lines 115-131): on failure, if `validation_split_size` is
`None` the line 126 `assert` fires, otherwise the training set is split
by `train_test_split`. -/
def run (env : Env) (c : ConfigTrain) : Except RunError RunResult :=
  match trainFetch env c with
  | Except.error _ => Except.error RunError.datasetError
  | Except.ok (dataset_support, dataset_train) =>
    match valFetch env c dataset_support with
    | Except.ok (_, dataset_val) =>
        Except.ok (mkResult env c dataset_support dataset_train dataset_train dataset_val false)
    | Except.error _ =>
        match c.validation_split_size with
        | none =>
            Except.error (RunError.assertionError
              "No validation set is available but validation split size has not been specified")
        | some s =>
            Except.ok (mkResult env c dataset_support dataset_train
              (env.train_test_split dataset_train s).1
              (env.train_test_split dataset_train s).2 true)

/-- The trace of a run outcome (empty when the run aborted). -/
def resultTrace : Except RunError RunResult → List Event
  | Except.ok r => r.trace
  | Except.error _ => []

/-- `precedes t a b` holds (as a boolean) when every occurrence of `b` in
`t` is preceded by an occurrence of `a` whenever both occur; with each
event occurring at most once, this is: if both `a` and `b` occur then `a`
occurs strictly earlier. -/
def precedes (t : List Event) (a b : Event) : Bool :=
  !(t.contains a) || !(t.contains b) || Nat.blt (t.indexOf a) (t.indexOf b)

/-! ### Concrete instances used as witnesses -/

/-- A concrete tokenizer for witness evaluation. -/
def exampleTokenizer : Tokenizer :=
  { eos_token := "</s>"
    eos_token_id := 2
    encode := fun s => [s.length, 1]
    decode := fun ids skip => (if skip then "out" else "raw") ++ toString ids.length }

/-- A concrete environment in which the validation fetch succeeds: the
fetch result depends on whether a support set was passed (which is how the
driver distinguishes the validation call from the training call). -/
def exampleEnv : Env :=
  { get_peft_config := fun pr => { prompt_tuning_init_text := "", num_virtual_tokens := 3 + pr.id }
    get_tuning_dataset := fun _ _ _ _ _ => { text := ["Alpha beta", "beta gamma"] }
    most_common_words := fun ws n => ws.take n
    get_tokenizer := fun _ _ => exampleTokenizer
    get_quantization_config := fun qr => { id := qr.id }
    get_model := fun mr _ _ _ => { id := mr.id }
    get_support_and_tuning_dataset := fun _ _ _ _ sup _ _ _ _ _ =>
      match sup with
      | some _ => Except.ok ({ id := 7 }, { text := ["val sample"] })
      | none => Except.ok ({ id := 7 }, { text := ["train sample one", "train sample two"] })
    train_test_split := fun d _ => ({ text := d.text.take 1 }, { text := d.text.drop 1 })
    select := fun d n => { text := d.text.take n }
    fit_system_template_tokens := fun _ _ _ => { id := 5 }
    add_proxy := fun m _ _ => { id := m.id + 100 }
    generate := fun m ids _ => [ids, [m.id], [0], [1]] }

/-- `exampleEnv` with a failing validation fetch (the support-passing
call raises), exercising the `try/except` fallback. -/
def exampleEnvNoVal : Env :=
  { exampleEnv with
    get_support_and_tuning_dataset := fun _ _ _ _ sup _ _ _ _ _ =>
      match sup with
      | some _ => Except.error ()
      | none => Except.ok ({ id := 7 }, { text := ["train sample one", "train sample two"] }) }

/-- A full-featured configuration: prompt-tuning PEFT with most-common-word
initialisation, quantization, system tuning, a training-size cap and a
validation split size. -/
def exampleConfig : ConfigTrain :=
  { verbose := false
    training_arguments := { output_dir := "out" }
    model_name := "example-model"
    peft_recipe := some { id := 1, peft_config_obj := PeftConfigClass.promptTuningConfig }
    prompt_tuning_most_common_init := true
    tokenizer_recipe := { id := 2 }
    model_recipe := { id := 3 }
    quantization_recipe := some { id := 4 }
    dataset_name := "example-dataset"
    dataset_recipe := { id := 5 }
    model_template_recipe := { postprocess_function := { id := 6 } }
    num_examples := 2
    num_proc := some 1
    dynamic_examples := false
    validation_split_size := some 0.2
    training_size := some 1
    system_tuning := true }

/-- A bare configuration: no PEFT recipe, no quantization recipe, no
training-size cap, system tuning off. -/
def exampleConfigBare : ConfigTrain :=
  { exampleConfig with
    peft_recipe := none
    prompt_tuning_most_common_init := false
    quantization_recipe := none
    training_size := none
    system_tuning := false }

/-- The run result for the full-featured configuration. -/
def exampleResult : RunResult :=
  (run exampleEnv exampleConfig).toOption.getD default

/-- The run result for the bare configuration. -/
def exampleResultBare : RunResult :=
  (run exampleEnv exampleConfigBare).toOption.getD default

/-- The run result for the full-featured configuration under the
environment whose validation fetch fails. -/
def exampleResultNoVal : RunResult :=
  (run exampleEnvNoVal exampleConfig).toOption.getD default

/-! ### Characterization of a completed run -/

lemma run_ok_spec (env : Env) (c : ConfigTrain) (r : RunResult)
    (h : run env c = Except.ok r) :
    r.peftConfigInitial = c.peft_recipe.map env.get_peft_config ∧
    r.peftConfig = (if promptInitCond c then
        (c.peft_recipe.map env.get_peft_config).map (fun pc =>
          { pc with prompt_tuning_init_text := initTextOf env c pc.num_virtual_tokens })
      else c.peft_recipe.map env.get_peft_config) ∧
    r.tokenizer = env.get_tokenizer c.tokenizer_recipe c.model_name ∧
    r.quantizationConfig = c.quantization_recipe.map env.get_quantization_config ∧
    r.modelConstructed = env.get_model c.model_recipe c.model_name r.quantizationConfig r.peftConfig ∧
    trainFetch env c = Except.ok (r.datasetSupport, r.datasetTrainInitial) ∧
    r.datasetTrain = (if selectCond c then env.select r.datasetTrainPostVal (c.training_size.getD 0) else r.datasetTrainPostVal) ∧
    r.modelFinal = (if sysCond c then
        env.add_proxy r.modelConstructed
          (env.fit_system_template_tokens r.datasetTrain c.model_template_recipe r.tokenizer) r.tokenizer
      else r.modelConstructed) ∧
    r.genConfig = { max_new_tokens := 100, num_return_sequences := 4, temperature := 0.6,
                    top_p := 0.9, do_sample := true, pad_token_id := r.tokenizer.eos_token_id } ∧
    r.genInput = r.tokenizer.encode testPrompt ∧
    r.outputs = env.generate r.modelFinal r.genInput r.genConfig ∧
    r.printed = r.outputs.map (fun output => r.tokenizer.decode output true) ∧
    (∃ vf : Bool, r.trace = eventTrace c.peft_recipe.isSome (promptInitCond c)
      c.quantization_recipe.isSome vf (selectCond c) (sysCond c)) := by
  unfold run at h
  cases htrain : trainFetch env c with
  | error e =>
    rw [htrain] at h
    exact absurd h (by simp)
  | ok p =>
    obtain ⟨sup, dt⟩ := p
    rw [htrain] at h
    dsimp only at h
    cases hval : valFetch env c sup with
    | ok q =>
      obtain ⟨s2, dval⟩ := q
      rw [hval] at h
      dsimp only at h
      have hr : r = mkResult env c sup dt dt dval false := by
        injection h with h2; exact h2.symm
      subst hr
      exact ⟨rfl, rfl, rfl, rfl, rfl, rfl, rfl, rfl, rfl, rfl, rfl, rfl, false, rfl⟩
    | error e =>
      rw [hval] at h
      dsimp only at h
      cases hvss : c.validation_split_size with
      | none => rw [hvss] at h; dsimp only at h; exact absurd h (by simp)
      | some s =>
        rw [hvss] at h
        dsimp only at h
        have hr : r = mkResult env c sup dt (env.train_test_split dt s).1
            (env.train_test_split dt s).2 true := by
          injection h with h2; exact h2.symm
        subst hr
        exact ⟨rfl, rfl, rfl, rfl, rfl, rfl, rfl, rfl, rfl, rfl, rfl, rfl, true, rfl⟩

lemma eventTrace_head : ∀ p q v s y z : Bool,
    (eventTrace p q v s y z).head? = some (Event.setSeed 42) := by decide

lemma eventTrace_order : ∀ p q v s y z : Bool,
    precedes (eventTrace p q v s y z) Event.parse Event.dispatchPeft = true ∧
    precedes (eventTrace p q v s y z) Event.parse Event.dispatchTokenizer = true ∧
    precedes (eventTrace p q v s y z) Event.parse Event.dispatchQuantization = true ∧
    precedes (eventTrace p q v s y z) Event.parse Event.dispatchModel = true ∧
    precedes (eventTrace p q v s y z) Event.parse Event.fetchTrainDataset = true ∧
    precedes (eventTrace p q v s y z) Event.dispatchPeft Event.dispatchModel = true ∧
    precedes (eventTrace p q v s y z) Event.dispatchTokenizer Event.dispatchModel = true ∧
    precedes (eventTrace p q v s y z) Event.dispatchQuantization Event.dispatchModel = true ∧
    precedes (eventTrace p q v s y z) Event.dispatchModel Event.generate = true ∧
    precedes (eventTrace p q v s y z) Event.fetchTrainDataset Event.generate = true := by
  decide

lemma eventTrace_seed_order : ∀ p q v s y z : Bool,
    precedes (eventTrace p q v s y z) (Event.setSeed 42) Event.dispatchModel = true ∧
    precedes (eventTrace p q v s y z) (Event.setSeed 42) Event.fetchTuningDataset = true ∧
    precedes (eventTrace p q v s y z) (Event.setSeed 42) Event.fetchTrainDataset = true ∧
    precedes (eventTrace p q v s y z) (Event.setSeed 42) Event.fetchValDataset = true ∧
    precedes (eventTrace p q v s y z) (Event.setSeed 42) Event.generate = true := by
  decide

lemma eventTrace_mem : ∀ p q v s y z : Bool,
    ((Event.dispatchPeft ∈ eventTrace p q v s y z) ↔ p = true) ∧
    ((Event.fetchTuningDataset ∈ eventTrace p q v s y z) ↔ q = true) ∧
    ((Event.dispatchQuantization ∈ eventTrace p q v s y z) ↔ v = true) ∧
    ((Event.addProxy ∈ eventTrace p q v s y z) ↔ z = true) ∧
    ((Event.fitSystemTemplate ∈ eventTrace p q v s y z) ↔ z = true) ∧
    Event.trainRun ∉ eventTrace p q v s y z := by
  decide

/-! ### Claims -/

/-- Claim C1 (code bug): the claim says every accepted configuration leads
to a parameter-efficient fine-tuning run (a training loop) being launched
before the generation sanity-check. The script imports `FineTuner` but
never launches any training: its trace contains no `trainRun` event while
it does reach `generate`, both for a full-featured and for a bare
configuration. -/
theorem no_training_run_before_generation :
    Event.trainRun ∉ resultTrace (run exampleEnv exampleConfig) ∧
    Event.generate ∈ resultTrace (run exampleEnv exampleConfig) ∧
    Event.trainRun ∉ resultTrace (run exampleEnv exampleConfigBare) ∧
    Event.generate ∈ resultTrace (run exampleEnv exampleConfigBare) := by
  decide

/-- Claim C2: every run that reaches the final stage generates from the
fixed test prompt with `max_new_tokens = 100`, `num_return_sequences = 4`,
sampling enabled with temperature 0.6 and top-p 0.9, and prints each
decoded output with special tokens stripped (`decode` applied with
`skip_special_tokens = true`). -/
theorem generation_sanity_check (env : Env) (c : ConfigTrain) (r : RunResult)
    (h : run env c = Except.ok r) :
    r.genInput = r.tokenizer.encode testPrompt ∧
    r.genConfig.max_new_tokens = 100 ∧
    r.genConfig.num_return_sequences = 4 ∧
    r.genConfig.do_sample = true ∧
    r.genConfig.temperature = 0.6 ∧
    r.genConfig.top_p = 0.9 ∧
    r.outputs = env.generate r.modelFinal r.genInput r.genConfig ∧
    r.printed = r.outputs.map (fun output => r.tokenizer.decode output true) := by
  obtain ⟨-, -, -, -, -, -, -, -, hg, hi, ho, hp, -⟩ := run_ok_spec env c r h
  exact ⟨hi, by rw [hg], by rw [hg], by rw [hg], by rw [hg], by rw [hg], ho, hp⟩

/-- Witness for C2 at a concrete environment and configuration. -/
theorem generation_sanity_check_witness :
    exampleResult.genInput = exampleResult.tokenizer.encode testPrompt ∧
    exampleResult.genConfig.max_new_tokens = 100 ∧
    exampleResult.genConfig.num_return_sequences = 4 ∧
    exampleResult.genConfig.do_sample = true ∧
    exampleResult.genConfig.temperature = 0.6 ∧
    exampleResult.genConfig.top_p = 0.9 :=
  have h := generation_sanity_check exampleEnv exampleConfig exampleResult rfl
  ⟨h.1, h.2.1, h.2.2.1, h.2.2.2.1, h.2.2.2.2.1, h.2.2.2.2.2.1⟩

/-- Claim C3: the system-template alignment step (`fit_system_template_tokens`
plus `SystemTuning.add_proxy`) runs exactly when a PEFT recipe is present,
its config class is `PromptTuningConfig`, and `system_tuning` is enabled;
otherwise the model reaching generation is the constructed model,
unmodified by this step. -/
theorem system_tuning_proxy_iff (env : Env) (c : ConfigTrain) (r : RunResult)
    (h : run env c = Except.ok r) :
    ((Event.addProxy ∈ r.trace) ↔ sysCond c = true) ∧
    (sysCond c = false → r.modelFinal = r.modelConstructed) ∧
    (sysCond c = true → r.modelFinal =
      env.add_proxy r.modelConstructed
        (env.fit_system_template_tokens r.datasetTrain c.model_template_recipe r.tokenizer)
        r.tokenizer) ∧
    (sysCond c = true ↔
      (∃ pr, c.peft_recipe = some pr ∧
        pr.peft_config_obj = PeftConfigClass.promptTuningConfig) ∧
      c.system_tuning = true) := by
  obtain ⟨-, -, -, -, -, -, -, hm, -, -, -, -, vf, htr⟩ := run_ok_spec env c r h
  refine ⟨?_, ?_, ?_, ?_⟩
  · rw [htr]; exact (eventTrace_mem _ _ _ vf _ _).2.2.2.1
  · intro hs; rw [hm, hs]; simp
  · intro hs; rw [hm, hs]; simp
  · cases hp : c.peft_recipe with
    | none => simp [sysCond, hp]
    | some pr => simp [sysCond, hp, decide_eq_true_iff]

/-- Witness for C3 at a concrete environment and configuration with the
condition enabled. -/
theorem system_tuning_proxy_iff_witness :
    (Event.addProxy ∈ exampleResult.trace) ∧
    exampleResult.modelFinal =
      exampleEnv.add_proxy exampleResult.modelConstructed
        (exampleEnv.fit_system_template_tokens exampleResult.datasetTrain
          exampleConfig.model_template_recipe exampleResult.tokenizer)
        exampleResult.tokenizer :=
  have h := system_tuning_proxy_iff exampleEnv exampleConfig exampleResult rfl
  ⟨h.1.mpr rfl, h.2.2.1 rfl⟩

/-- Claim C4: pipeline order. Parsing precedes every dispatch and fetch;
the PEFT, tokenizer, and quantization dispatches precede model
construction; model construction (and the training-set fetch) precedes
generation. -/
theorem pipeline_stage_order (env : Env) (c : ConfigTrain) (r : RunResult)
    (h : run env c = Except.ok r) :
    precedes r.trace Event.parse Event.dispatchPeft = true ∧
    precedes r.trace Event.parse Event.dispatchTokenizer = true ∧
    precedes r.trace Event.parse Event.dispatchQuantization = true ∧
    precedes r.trace Event.parse Event.dispatchModel = true ∧
    precedes r.trace Event.parse Event.fetchTrainDataset = true ∧
    precedes r.trace Event.dispatchPeft Event.dispatchModel = true ∧
    precedes r.trace Event.dispatchTokenizer Event.dispatchModel = true ∧
    precedes r.trace Event.dispatchQuantization Event.dispatchModel = true ∧
    precedes r.trace Event.dispatchModel Event.generate = true ∧
    precedes r.trace Event.fetchTrainDataset Event.generate = true := by
  obtain ⟨-, -, -, -, -, -, -, -, -, -, -, -, vf, htr⟩ := run_ok_spec env c r h
  rw [htr]
  exact eventTrace_order _ _ _ vf _ _

/-- Witness for C4 at a concrete environment and configuration. -/
theorem pipeline_stage_order_witness :
    precedes exampleResult.trace Event.parse Event.dispatchModel = true ∧
    precedes exampleResult.trace Event.dispatchTokenizer Event.dispatchModel = true ∧
    precedes exampleResult.trace Event.dispatchModel Event.generate = true :=
  have h := pipeline_stage_order exampleEnv exampleConfig exampleResult rfl
  ⟨h.2.2.2.1, h.2.2.2.2.2.2.1, h.2.2.2.2.2.2.2.2.1⟩

/-- Claim C5: the dispatchers are the sole source of the framework objects
used by the run: the tokenizer is `TokenizerDispatcher` applied to the
tokenizer recipe and model name; the constructed model is `ModelDispatcher`
applied to the model recipe, model name, quantization config, and PEFT
config; the support/training datasets are the `DatasetDispatcher` call on
the dataset recipe and dataset name; the PEFT and quantization configs come
from their dispatchers when their recipes are present. -/
theorem dispatcher_factory_objects (env : Env) (c : ConfigTrain) (r : RunResult)
    (h : run env c = Except.ok r) :
    r.tokenizer = env.get_tokenizer c.tokenizer_recipe c.model_name ∧
    r.modelConstructed =
      env.get_model c.model_recipe c.model_name r.quantizationConfig r.peftConfig ∧
    trainFetch env c = Except.ok (r.datasetSupport, r.datasetTrainInitial) ∧
    r.peftConfigInitial = c.peft_recipe.map env.get_peft_config ∧
    r.quantizationConfig = c.quantization_recipe.map env.get_quantization_config := by
  obtain ⟨h1, -, h3, h4, h5, h6, -⟩ := run_ok_spec env c r h
  exact ⟨h3, h5, h6, h1, h4⟩

/-- Witness for C5 at a concrete environment and configuration. -/
theorem dispatcher_factory_objects_witness :
    exampleResult.tokenizer =
      exampleEnv.get_tokenizer exampleConfig.tokenizer_recipe exampleConfig.model_name ∧
    exampleResult.modelConstructed =
      exampleEnv.get_model exampleConfig.model_recipe exampleConfig.model_name
        exampleResult.quantizationConfig exampleResult.peftConfig ∧
    trainFetch exampleEnv exampleConfig =
      Except.ok (exampleResult.datasetSupport, exampleResult.datasetTrainInitial) :=
  have h := dispatcher_factory_objects exampleEnv exampleConfig exampleResult rfl
  ⟨h.1, h.2.1, h.2.2.1⟩

/-- Claim C6: when the PEFT recipe is absent the PEFT config passed to
model construction is `none` and the PEFT dispatcher is never invoked;
likewise for the quantization recipe and dispatcher. -/
theorem absent_recipe_none (env : Env) (c : ConfigTrain) (r : RunResult)
    (h : run env c = Except.ok r) :
    r.modelConstructed =
      env.get_model c.model_recipe c.model_name r.quantizationConfig r.peftConfig ∧
    (c.peft_recipe = none → r.peftConfig = none ∧ Event.dispatchPeft ∉ r.trace) ∧
    (c.quantization_recipe = none →
      r.quantizationConfig = none ∧ Event.dispatchQuantization ∉ r.trace) := by
  obtain ⟨-, h2, -, h4, h5, -, -, -, -, -, -, -, vf, htr⟩ := run_ok_spec env c r h
  refine ⟨h5, ?_, ?_⟩
  · intro hp
    refine ⟨?_, ?_⟩
    · rw [h2, hp]; simp
    · rw [htr]
      intro hmem
      have hmm := ((eventTrace_mem _ _ _ vf _ _).1).mp hmem
      rw [hp] at hmm
      simp at hmm
  · intro hq
    refine ⟨?_, ?_⟩
    · rw [h4, hq]; simp
    · rw [htr]
      intro hmem
      have hmm := ((eventTrace_mem _ _ _ vf _ _).2.2.1).mp hmem
      rw [hq] at hmm
      simp at hmm

/-- Witness for C6 at a concrete environment and the bare configuration
(no PEFT recipe, no quantization recipe). -/
theorem absent_recipe_none_witness :
    exampleResultBare.peftConfig = none ∧
    Event.dispatchPeft ∉ exampleResultBare.trace ∧
    exampleResultBare.quantizationConfig = none ∧
    Event.dispatchQuantization ∉ exampleResultBare.trace :=
  have h := absent_recipe_none exampleEnv exampleConfigBare exampleResultBare rfl
  ⟨(h.2.1 rfl).1, (h.2.1 rfl).2, (h.2.2 rfl).1, (h.2.2 rfl).2⟩

/-- Claim C7: when the validation fetch raises, the driver asserts with
the exact message if `validation_split_size` is absent; otherwise it
splits the training set with test fraction `validation_split_size` and
leaves the original `dataset_support` unchanged. -/
theorem validation_split_fallback (env : Env) (c : ConfigTrain) (sup : DatasetSupport)
    (dt : Dataset) (s : ℚ) (r : RunResult)
    (htrain : trainFetch env c = Except.ok (sup, dt))
    (hval : valFetch env c sup = Except.error ()) :
    (c.validation_split_size = none →
      run env c = Except.error (RunError.assertionError
        "No validation set is available but validation split size has not been specified")) ∧
    (c.validation_split_size = some s → run env c = Except.ok r →
      r.datasetTrainPostVal = (env.train_test_split dt s).1 ∧
      r.datasetVal = (env.train_test_split dt s).2 ∧
      r.datasetSupport = sup ∧
      r.datasetTrainInitial = dt) := by
  constructor
  · intro hnone
    simp only [run, htrain, hval, hnone]
  · intro hsome hrun
    unfold run at hrun
    rw [htrain] at hrun
    dsimp only at hrun
    rw [hval] at hrun
    dsimp only at hrun
    rw [hsome] at hrun
    dsimp only at hrun
    have hr : r = mkResult env c sup dt (env.train_test_split dt s).1
        (env.train_test_split dt s).2 true := by
      injection hrun with h2; exact h2.symm
    subst hr
    exact ⟨rfl, rfl, rfl, rfl⟩

/-- Witness for C7: an environment whose validation fetch raises, with a
split size configured. -/
theorem validation_split_fallback_witness :
    exampleResultNoVal.datasetTrainPostVal =
      (exampleEnvNoVal.train_test_split exampleResultNoVal.datasetTrainInitial 0.2).1 ∧
    exampleResultNoVal.datasetVal =
      (exampleEnvNoVal.train_test_split exampleResultNoVal.datasetTrainInitial 0.2).2 ∧
    exampleResultNoVal.datasetSupport = { id := 7 } :=
  have h := validation_split_fallback exampleEnvNoVal exampleConfig { id := 7 }
    { text := ["train sample one", "train sample two"] } 0.2 exampleResultNoVal rfl rfl
  have h2 := h.2 rfl rfl
  ⟨h2.1, h2.2.1, h2.2.2.1⟩

/-- Claim C8: with a prompt-tuning PEFT recipe and
`prompt_tuning_most_common_init` enabled, `prompt_tuning_init_text` is set
to the space-join of the `num_virtual_tokens` most common words of the
training split's text (join with spaces, lowercase, split on single
spaces); in every other configuration the PEFT config keeps the
dispatcher's value. -/
theorem prompt_tuning_init_text_rule (env : Env) (c : ConfigTrain) (r : RunResult)
    (h : run env c = Except.ok r) :
    (promptInitCond c = true →
      r.peftConfig = (c.peft_recipe.map env.get_peft_config).map (fun pc =>
        { pc with prompt_tuning_init_text := initTextOf env c pc.num_virtual_tokens })) ∧
    (promptInitCond c = false → r.peftConfig = r.peftConfigInitial) ∧
    (∀ n, initTextOf env c n = String.intercalate " "
      (env.most_common_words
        (((String.intercalate " "
          (env.get_tuning_dataset c.dataset_recipe c.dataset_name "train" "" false).text).toLower).splitOn " ")
        n)) ∧
    (promptInitCond c = true ↔
      (∃ pr, c.peft_recipe = some pr ∧
        pr.peft_config_obj = PeftConfigClass.promptTuningConfig) ∧
      c.prompt_tuning_most_common_init = true) := by
  obtain ⟨h1, h2, -⟩ := run_ok_spec env c r h
  refine ⟨?_, ?_, fun n => rfl, ?_⟩
  · intro hc; rw [h2, hc]; simp
  · intro hc; rw [h2, hc, h1]; simp
  · cases hp : c.peft_recipe with
    | none => simp [promptInitCond, hp]
    | some pr => simp [promptInitCond, hp, decide_eq_true_iff]

/-- Witness for C8 at a concrete environment and configuration with the
condition enabled. -/
theorem prompt_tuning_init_text_rule_witness :
    exampleResult.peftConfig =
      (exampleConfig.peft_recipe.map exampleEnv.get_peft_config).map (fun pc =>
        { pc with
          prompt_tuning_init_text := initTextOf exampleEnv exampleConfig pc.num_virtual_tokens }) :=
  (prompt_tuning_init_text_rule exampleEnv exampleConfig exampleResult rfl).1 rfl

/-- Claim C9: the seed event `setSeed 42` is the first event of every
completed run's trace, preceding every model, dataset, and generation
operation; and two runs with the same configuration and environment
produce the same train/validation datasets and the same generation
outputs. -/
theorem seed_first_and_deterministic (env : Env) (c : ConfigTrain) (r1 r2 : RunResult)
    (h1 : run env c = Except.ok r1) (h2 : run env c = Except.ok r2) :
    r1.trace.head? = some (Event.setSeed 42) ∧
    precedes r1.trace (Event.setSeed 42) Event.dispatchModel = true ∧
    precedes r1.trace (Event.setSeed 42) Event.fetchTrainDataset = true ∧
    precedes r1.trace (Event.setSeed 42) Event.fetchValDataset = true ∧
    precedes r1.trace (Event.setSeed 42) Event.generate = true ∧
    r1.datasetTrain = r2.datasetTrain ∧
    r1.datasetVal = r2.datasetVal ∧
    r1.outputs = r2.outputs ∧
    r1.printed = r2.printed := by
  have heq : r1 = r2 := by
    rw [h1] at h2
    injection h2
  obtain ⟨-, -, -, -, -, -, -, -, -, -, -, -, vf, htr⟩ := run_ok_spec env c r1 h1
  subst heq
  rw [htr]
  have ho := eventTrace_seed_order c.peft_recipe.isSome (promptInitCond c)
    c.quantization_recipe.isSome vf (selectCond c) (sysCond c)
  exact ⟨eventTrace_head _ _ _ vf _ _, ho.1, ho.2.2.1, ho.2.2.2.1, ho.2.2.2.2, rfl, rfl, rfl, rfl⟩

/-- Witness for C9 at a concrete environment and configuration. -/
theorem seed_first_and_deterministic_witness :
    exampleResult.trace.head? = some (Event.setSeed 42) ∧
    precedes exampleResult.trace (Event.setSeed 42) Event.generate = true :=
  have h := seed_first_and_deterministic exampleEnv exampleConfig
    exampleResult exampleResult rfl rfl
  ⟨h.1, h.2.2.2.2.1⟩
